import Mathlib

/-
Verification of the photo lifecycle and search logic of the gallery page
(src/frontend/src/app/gallery/page.tsx). The page keeps the photo catalog in a
React state array of GalleryItem records; every lifecycle action (move to
trash, restore, permanent delete, clear trash, favorite toggle) performs a
fetch and, on success, applies a pure update to that array. Those pure
updates, the view filters (visiblePhotos, filteredPhotos), the search index
construction (buildIndex, flattenObjToText) and formatBytes are embedded
below. JavaScript strings are modeled as lists of characters; each embedded
function carries the name of its source counterpart.
-/

namespace Gallery

/-- JavaScript strings, modeled as lists of characters. -/
abbrev JSStr := List Char

/-- The ViewType union of interfaces/types: which gallery view is active. -/
inductive ViewType where
  | photos
  | upload
  | albums
  | favorites
  | trash
  | dashboard
  | album_detail
deriving DecidableEq, Repr

/-- A GalleryItem record as held in the items state array of page.tsx. -/
structure GalleryItem where
  id : JSStr
  title : JSStr
  date : JSStr
  size : JSStr
  src : JSStr
  thumbnail : JSStr
  preview : Bool
  favorite : Bool
  trashed : Bool
deriving DecidableEq, Repr

/-- visiblePhotos (page.tsx 841-845): the photos rendered by the active view.
favorites shows favorite and not trashed, trash shows trashed, every other
view shows the not-trashed photos. -/
def visiblePhotos (view : ViewType) (items : List GalleryItem) : List GalleryItem :=
  if view = ViewType.favorites then items.filter (fun p => p.favorite && !p.trashed)
  else if view = ViewType.trash then items.filter (fun p => p.trashed)
  else items.filter (fun p => !p.trashed)

/-- The success state update of moveToTrash (page.tsx 935-964): the targeted
photo gets trashed := true and favorite := false, every other photo is kept. -/
def moveToTrashUpdate (id : JSStr) (prev : List GalleryItem) : List GalleryItem :=
  prev.map fun p => if p.id = id then { p with trashed := true, favorite := false } else p

/-- The success state update of restoreFromTrash (page.tsx 1014-1041): the
targeted photo gets trashed := false, every other photo is kept. -/
def restoreUpdate (id : JSStr) (prev : List GalleryItem) : List GalleryItem :=
  prev.map fun p => if p.id = id then { p with trashed := false } else p

/-- The success state update of deletePermanent (page.tsx 1043-1080): the
targeted photo is removed from the array. -/
def deletePermanentUpdate (id : JSStr) (prev : List GalleryItem) : List GalleryItem :=
  prev.filter fun p => !decide (p.id = id)

/-- The success state update of clearTrash (page.tsx 1082-1114): every trashed
photo is removed from the array. -/
def clearTrashUpdate (prev : List GalleryItem) : List GalleryItem :=
  prev.filter fun p => !p.trashed

/-- The optimistic state update of toggleFavoriteStatus (page.tsx 1116-1162),
applied before the fetch: the targeted photo gets
favorite := not isCurrentlyFavorite. -/
def optimisticFavoriteUpdate (photoId : JSStr) (isCurrentlyFavorite : Bool)
    (prev : List GalleryItem) : List GalleryItem :=
  prev.map fun item =>
    if item.id = photoId then { item with favorite := !isCurrentlyFavorite } else item

/-- The revert state update of toggleFavoriteStatus, applied when the fetch
response is not ok: the targeted photo gets favorite := isCurrentlyFavorite. -/
def revertFavoriteUpdate (photoId : JSStr) (isCurrentlyFavorite : Bool)
    (prev : List GalleryItem) : List GalleryItem :=
  prev.map fun item =>
    if item.id = photoId then { item with favorite := isCurrentlyFavorite } else item

/-- response.ok of the Fetch API: the status is in the range 200-299. -/
def respOk (status : Nat) : Bool := decide (200 ≤ status) && decide (status < 300)

/-- Outcome of one lifecycle request handler: the items array after the
handler ran and the message passed to setError (none when no error was set). -/
structure OpResult where
  items : List GalleryItem
  error : Option JSStr
deriving DecidableEq, Repr

/-- moveToTrash (page.tsx 935-964) as a function of the fetch response, after
the access-token guard (which leaves the state untouched): on ok apply the
update; on 404 set the merged not-found message; otherwise report statusText. -/
def moveToTrashResult (id : JSStr) (status : Nat) (statusText : JSStr)
    (prev : List GalleryItem) : OpResult :=
  if respOk status then { items := moveToTrashUpdate id prev, error := none }
  else if status = 404 then
    { items := prev, error := some ("Photo not found or access denied.".toList) }
  else
    { items := prev, error := some (("Failed to move to trash: ".toList) ++ statusText) }

/-- restoreFromTrash (page.tsx 1014-1041) as a function of the fetch response,
after the access-token guard. -/
def restoreResult (id : JSStr) (status : Nat) (statusText : JSStr)
    (prev : List GalleryItem) : OpResult :=
  if respOk status then { items := restoreUpdate id prev, error := none }
  else if status = 404 then
    { items := prev, error := some ("Photo not found or access denied.".toList) }
  else
    { items := prev, error := some (("Failed to restore photo: ".toList) ++ statusText) }

/-- deletePermanent (page.tsx 1043-1080) as a function of the confirm dialog
answer and the fetch response, after the access-token guard: a declined
confirm returns before the fetch with no error set. -/
def deletePermanentResult (id : JSStr) (confirmed : Bool) (status : Nat)
    (statusText : JSStr) (prev : List GalleryItem) : OpResult :=
  if !confirmed then { items := prev, error := none }
  else if respOk status then { items := deletePermanentUpdate id prev, error := none }
  else if status = 404 then
    { items := prev, error := some ("Photo not found or access denied.".toList) }
  else
    { items := prev,
      error := some (("Failed to permanently delete photo: ".toList) ++ statusText) }

/-- String.prototype.trim applied to searchQuery: strip whitespace from both
ends (modeled over the whitespace characters of Char.isWhitespace). -/
def jsTrim (s : JSStr) : JSStr :=
  ((s.dropWhile Char.isWhitespace).reverse.dropWhile Char.isWhitespace).reverse

/-- String.prototype.toLowerCase: Char.toLower lowers exactly the characters
A-Z, the simple case mapping JavaScript applies to them. -/
def jsToLower (s : JSStr) : JSStr := s.map Char.toLower

/-- The fallback search text of filteredPhotos (page.tsx 848-858) for a photo
whose id is not in the index: the template literal of title, date and size,
lowercased. -/
def fallbackText (p : GalleryItem) : JSStr :=
  jsToLower (p.title ++ [' '] ++ p.date ++ [' '] ++ p.size)

/-- The filter predicate of filteredPhotos (page.tsx 848-858): when the index
lookup is truthy (present and non-empty) match against the indexed string,
otherwise against the fallback text; a match is substring containment. -/
def photoMatches (searchIndex : JSStr → Option JSStr) (q : JSStr)
    (p : GalleryItem) : Bool :=
  match searchIndex p.id with
  | some s => if s.isEmpty then decide (q <:+: fallbackText p) else decide (q <:+: s)
  | none => decide (q <:+: fallbackText p)

/-- filteredPhotos (page.tsx 848-858): with a query that trims to nothing, the
visible photos; otherwise the visible photos matching the trimmed lowercased
query. -/
def filteredPhotos (view : ViewType) (items : List GalleryItem) (searchQuery : JSStr)
    (searchIndex : JSStr → Option JSStr) : List GalleryItem :=
  if (jsTrim searchQuery).isEmpty then visiblePhotos view items
  else (visiblePhotos view items).filter
    (photoMatches searchIndex (jsToLower (jsTrim searchQuery)))

/-- An empty search index, used to instantiate theorems. -/
def noIndex : JSStr → Option JSStr := fun _ => none

/-- Array.prototype.join applied with separator " ", as used by
flattenObjToText and buildIndex. -/
def joinSp : List JSStr → JSStr
  | [] => []
  | [x] => x
  | x :: y :: rest => x ++ (' ' :: joinSp (y :: rest))

/-- An EXIF value as seen by flattenObjToText: either a truthy object, which
is walked recursively, or anything else (string, number, null, ...), which is
rendered by String(v); the rendering is carried as the leaf text. -/
inductive ExifVal where
  | leaf : JSStr → ExifVal
  | node : List (JSStr × ExifVal) → ExifVal

/-- The walk closure of flattenObjToText (page.tsx 770-783): push k:String(v)
for every non-object entry, recurse into object values (dropping the key of
the object itself), in entry order. -/
def walkFields : List (JSStr × ExifVal) → List JSStr
  | [] => []
  | (k, ExifVal.leaf s) :: rest => (k ++ (':' :: s)) :: walkFields rest
  | (_, ExifVal.node fs) :: rest => walkFields fs ++ walkFields rest

/-- flattenObjToText (page.tsx 770-783): empty for a null or undefined object,
otherwise the walked key:value parts joined by spaces. -/
def flattenObjToText : Option (List (JSStr × ExifVal)) → JSStr
  | none => []
  | some fields => joinSp (walkFields fields)

/-- The sizes array of formatBytes (page.tsx 785-792). -/
def sizes : List JSStr :=
  ["B".toList, "KB".toList, "MB".toList, "GB".toList, "TB".toList,
   "PB".toList, "EB".toList, "ZB".toList, "YB".toList]

/-- formatBytes (page.tsx 785-792) on a natural byte count. The unit index
i = Math.floor(Math.log(bytes) / Math.log(1024)) is modeled by
Nat.log 1024 bytes, the exact value of that floor over the reals; the numeric
prefix parseFloat((bytes / Math.pow(k, i)).toFixed(dm)) is floating point and
is abstracted as the parameter fmtNum applied to bytes and i. An index past
the end of sizes yields the empty unit. -/
def formatBytes (fmtNum : Nat → Nat → JSStr) (bytes : Nat) : JSStr :=
  if bytes = 0 then "0 B".toList
  else fmtNum bytes (Nat.log 1024 bytes) ++ (' ' :: sizes.getD (Nat.log 1024 bytes) [])

/-- A raw PhotoItem record as returned by the gallery and trash endpoints,
restricted to the fields buildIndex reads. The upload date is kept as the raw
string handed to new Date(...).toLocaleDateString(, modeled by the fmtDate
parameter below). -/
structure PhotoItem where
  id : JSStr
  filename : JSStr
  caption : Option JSStr
  upload_date : JSStr
  size_bytes : Nat
  is_favorite : Bool
  is_deleted : Bool
  exif_data : Option (List (JSStr × ExifVal))

/-- One entry of buildIndex (page.tsx 1246-1263): the searchable text stored
for a photo. fmtDate abstracts the environment-dependent
new Date(...).toLocaleDateString(); fmtNum abstracts the floating-point
numeric prefix inside formatBytes. -/
def buildIndexEntry (fmtDate : JSStr → JSStr) (fmtNum : Nat → Nat → JSStr)
    (d : PhotoItem) : JSStr :=
  jsToLower (joinSp
    [d.filename,
     d.caption.getD [],
     fmtDate d.upload_date,
     formatBytes fmtNum d.size_bytes,
     flattenObjToText d.exif_data,
     if d.is_favorite then "favorite".toList else [],
     if d.is_deleted then "trash deleted".toList else []])

/-- Modelled from the spec: "Built by flattening filename, caption, formatted
upload date, formatted size, and all metadata key:value pairs (recursively,
for nested metadata) into a lowercase space-joined string per photo." This is
the index entry the spec describes, stated for comparison with
buildIndexEntry. -/
def specIndexEntry (fmtDate : JSStr → JSStr) (fmtNum : Nat → Nat → JSStr)
    (d : PhotoItem) : JSStr :=
  jsToLower (joinSp
    [d.filename,
     d.caption.getD [],
     fmtDate d.upload_date,
     formatBytes fmtNum d.size_bytes,
     flattenObjToText d.exif_data])

/-- A concrete favorite PhotoItem, used to separate buildIndexEntry from
specIndexEntry. Its byte size is zero so that formatBytes takes its early
return, and it carries no EXIF block. -/
def photoFav : PhotoItem :=
  { id := "a".toList, filename := "Sunset.jpg".toList,
    caption := some ("Vacation".toList), upload_date := "2024-01-01".toList,
    size_bytes := 0, is_favorite := true, is_deleted := false,
    exif_data := none }

/-- A non-trashed favorite photo, used to instantiate theorems. -/
def itemA : GalleryItem :=
  { id := "a".toList, title := "sunset".toList, date := "1/1/2024".toList,
    size := "1 KB".toList, src := "s".toList, thumbnail := "t".toList,
    preview := false, favorite := true, trashed := false }

/-- A trashed non-favorite photo with a different id, used to instantiate
theorems. -/
def itemB : GalleryItem :=
  { id := "b".toList, title := "beach".toList, date := "2/2/2024".toList,
    size := "2 KB".toList, src := "s2".toList, thumbnail := "t2".toList,
    preview := false, favorite := false, trashed := true }

/-- Packing a scalar value below the surrogate range and unpacking it is the
identity. -/
theorem char_toNat_ofNat_small (n : Nat) (h : n < 55296) :
    (Char.ofNat n).toNat = n := by
  have hv : n.isValidChar := Or.inl h
  unfold Char.ofNat
  rw [dif_pos hv]
  simp [Char.ofNatAux, Char.toNat, UInt32.toNat, BitVec.toNat_ofNatLt]

/-- The four whitespace characters of Char.isWhitespace. -/
theorem char_ws_cases {c : Char} (h : c.isWhitespace = true) :
    c = ' ' ∨ c = '\t' ∨ c = '\r' ∨ c = '\n' := by
  unfold Char.isWhitespace at h
  simp only [Bool.or_eq_true, decide_eq_true_eq] at h
  tauto

/-- A character at or above code point 97 is not whitespace. -/
theorem char_ws_false_of_ge (d : Char) (h : 97 ≤ d.toNat) :
    d.isWhitespace = false := by
  have h1 : d ≠ ' ' := fun he => absurd (he ▸ h) (by decide)
  have h2 : d ≠ '\t' := fun he => absurd (he ▸ h) (by decide)
  have h3 : d ≠ '\r' := fun he => absurd (he ▸ h) (by decide)
  have h4 : d ≠ '\n' := fun he => absurd (he ▸ h) (by decide)
  unfold Char.isWhitespace
  simp [h1, h2, h3, h4]

/-- Lowercasing does not change whether a character is whitespace. -/
theorem isWhitespace_toLower (c : Char) :
    (Char.toLower c).isWhitespace = c.isWhitespace := by
  by_cases hws : c.isWhitespace = true
  · rcases char_ws_cases hws with h | h | h | h <;> subst h <;> rfl
  · have hw : c.isWhitespace = false := by simpa using hws
    rw [hw]
    simp only [Char.toLower]
    by_cases h : c.toNat ≥ 65 ∧ c.toNat ≤ 90
    · rw [if_pos h]
      exact char_ws_false_of_ge _ (by rw [char_toNat_ofNat_small _ (by omega)]; omega)
    · rw [if_neg h]
      exact hw

/-- Lowercasing commutes with trimming. -/
theorem jsToLower_jsTrim (s : JSStr) :
    jsToLower (jsTrim s) = jsTrim (jsToLower s) := by
  have hcomp : Char.isWhitespace ∘ Char.toLower = Char.isWhitespace :=
    funext isWhitespace_toLower
  simp only [jsTrim, jsToLower, List.dropWhile_map, ← List.map_reverse, hcomp]

/-- C1: applying the moveToTrash success update and then the restoreFromTrash
success update to a photo id present in the list leaves every photo carrying
that id with trashed = false and favorite = false, whatever its favorite flag
was before the soft delete. -/
theorem softDelete_then_restore_clears_flags (items : List GalleryItem) (i : JSStr)
    (hpresent : ∃ p ∈ items, p.id = i) :
    ∀ p ∈ restoreUpdate i (moveToTrashUpdate i items), p.id = i →
      p.trashed = false ∧ p.favorite = false := by
  intro p hp hid
  simp only [restoreUpdate, moveToTrashUpdate, List.map_map, List.mem_map,
    Function.comp] at hp
  obtain ⟨q, hq, rfl⟩ := hp
  by_cases h : q.id = i
  · simp [h]
  · exfalso
    simp [h] at hid

/-- Witness for C1 at a concrete favorite photo. -/
theorem softDelete_then_restore_clears_flags_witness :
    ({ itemA with trashed := false, favorite := false } : GalleryItem).trashed = false ∧
    ({ itemA with trashed := false, favorite := false } : GalleryItem).favorite = false :=
  softDelete_then_restore_clears_flags [itemA] ("a".toList)
    ⟨itemA, by decide, by decide⟩
    { itemA with trashed := false, favorite := false } (by decide) (by decide)

/-- C2: the photos and favorites views display only non-trashed photos
(favorites additionally requires favorite = true), the trash view displays
exactly the trashed photos, and no view other than trash ever displays a
trashed photo. -/
theorem visiblePhotos_excludes_trashed (items : List GalleryItem) (p : GalleryItem) :
    (p ∈ visiblePhotos ViewType.photos items ↔ p ∈ items ∧ p.trashed = false) ∧
    (p ∈ visiblePhotos ViewType.favorites items ↔
      p ∈ items ∧ p.favorite = true ∧ p.trashed = false) ∧
    (p ∈ visiblePhotos ViewType.trash items ↔ p ∈ items ∧ p.trashed = true) ∧
    (∀ v : ViewType, v ≠ ViewType.trash → p ∈ visiblePhotos v items →
      p.trashed = false) := by
  refine ⟨?_, ?_, ?_, ?_⟩
  · simp [visiblePhotos, List.mem_filter]
  · simp [visiblePhotos, List.mem_filter]
  · simp [visiblePhotos, List.mem_filter]
  · intro v hv hp
    cases v <;> simp_all [visiblePhotos, List.mem_filter]

/-- Witness for C2: the photos view of a concrete list does not show the
trashed element. -/
theorem visiblePhotos_excludes_trashed_witness : itemA.trashed = false :=
  (visiblePhotos_excludes_trashed [itemA, itemB] itemA).2.2.2
    ViewType.photos (by decide) (by decide)

/-- C3: the clearTrash success update keeps exactly the photos whose trashed
flag is false, each unchanged and in their previous order. -/
theorem clearTrash_spec (prev : List GalleryItem) :
    (∀ p, p ∈ clearTrashUpdate prev ↔ p ∈ prev ∧ p.trashed = false) ∧
    List.Sublist (clearTrashUpdate prev) prev := by
  constructor
  · intro p
    simp [clearTrashUpdate, List.mem_filter]
  · exact List.filter_sublist _

/-- Witness for C3 at a concrete two-element list. -/
theorem clearTrash_spec_witness :
    itemA ∈ clearTrashUpdate [itemA, itemB] ↔
      itemA ∈ [itemA, itemB] ∧ itemA.trashed = false :=
  (clearTrash_spec [itemA, itemB]).1 itemA

/-- C4: the moveToTrash success update is idempotent on the photo list. -/
theorem softDelete_idempotent (i : JSStr) (items : List GalleryItem) :
    moveToTrashUpdate i (moveToTrashUpdate i items) = moveToTrashUpdate i items := by
  simp only [moveToTrashUpdate, List.map_map]
  apply List.map_congr_left
  intro p _
  by_cases h : p.id = i <;> simp [Function.comp, h]

/-- C5: a query selects exactly the visible photos whose indexed string (or
fallback text, for a photo absent from the index) contains the trimmed
lowercased query as a substring; queries equal up to letter case give the
same result; and a photos-view or favorites-view query result never contains
a trashed photo. -/
theorem filteredPhotos_spec (view : ViewType) (items : List GalleryItem)
    (searchIndex : JSStr → Option JSStr) (q q2 : JSStr)
    (hne : ∀ i s, searchIndex i = some s → s ≠ [])
    (hcase : jsToLower q = jsToLower q2) :
    (∀ p, p ∈ filteredPhotos view items q searchIndex ↔
        p ∈ visiblePhotos view items ∧
          (match searchIndex p.id with
            | some s => jsToLower (jsTrim q) <:+: s
            | none => jsToLower (jsTrim q) <:+: fallbackText p)) ∧
    filteredPhotos view items q searchIndex =
      filteredPhotos view items q2 searchIndex ∧
    (∀ p, view = ViewType.photos ∨ view = ViewType.favorites →
        p ∈ filteredPhotos view items q searchIndex → p.trashed = false) := by
  have key : ∀ p, photoMatches searchIndex (jsToLower (jsTrim q)) p = true ↔
      (match searchIndex p.id with
        | some s => jsToLower (jsTrim q) <:+: s
        | none => jsToLower (jsTrim q) <:+: fallbackText p) := by
    intro p
    unfold photoMatches
    cases hidx : searchIndex p.id with
    | none => simp
    | some s =>
      have hsne : s ≠ [] := hne p.id s hidx
      have hs : s.isEmpty = false := by simpa [List.isEmpty_iff] using hsne
      simp [hs]
  have hchar : ∀ p, p ∈ filteredPhotos view items q searchIndex ↔
      p ∈ visiblePhotos view items ∧
        (match searchIndex p.id with
          | some s => jsToLower (jsTrim q) <:+: s
          | none => jsToLower (jsTrim q) <:+: fallbackText p) := by
    intro p
    unfold filteredPhotos
    by_cases hq : (jsTrim q).isEmpty = true
    · have hqe : jsTrim q = [] := by simpa [List.isEmpty_iff] using hq
      rw [if_pos hq]
      constructor
      · intro hp
        refine ⟨hp, ?_⟩
        cases hidx : searchIndex p.id <;> simp [hqe, jsToLower]
      · exact And.left
    · rw [if_neg hq, List.mem_filter]
      exact and_congr_right fun _ => key p
  refine ⟨hchar, ?_, ?_⟩
  · have htrim : jsToLower (jsTrim q) = jsToLower (jsTrim q2) := by
      rw [jsToLower_jsTrim, jsToLower_jsTrim, hcase]
    have hmapE : ∀ l : JSStr, (jsToLower l).isEmpty = l.isEmpty := by
      intro l
      cases l <;> simp [jsToLower]
    have hq12 : (jsTrim q).isEmpty = (jsTrim q2).isEmpty := by
      have h1 := congrArg List.isEmpty htrim
      rwa [hmapE, hmapE] at h1
    unfold filteredPhotos
    rw [hq12, htrim]
  · intro p hview hp
    have hvp : p ∈ visiblePhotos view items := ((hchar p).mp hp).1
    rcases hview with h | h <;> subst h <;>
      simp [visiblePhotos, List.mem_filter] at hvp <;> tauto

/-- Witness for C5: the characterization at a concrete query, list and the
empty index, where the match against the absent entry is the fallback text. -/
theorem filteredPhotos_spec_witness :
    itemA ∈ filteredPhotos ViewType.photos [itemA, itemB] ("SUN".toList) noIndex ↔
      itemA ∈ visiblePhotos ViewType.photos [itemA, itemB] ∧
        jsToLower (jsTrim ("SUN".toList)) <:+: fallbackText itemA :=
  (filteredPhotos_spec ViewType.photos [itemA, itemB] noIndex
    ("SUN".toList) ("sun".toList) (fun _ _ h => by simp [noIndex] at h)
    (by decide)).1 itemA

/-- C7: when every photo carrying the targeted id has favorite equal to the
isCurrentlyFavorite argument, the optimistic favorite update followed by the
failure revert leaves the photo list exactly as it was. -/
theorem favoriteToggle_revert_is_identity (photoId : JSStr) (isCur : Bool)
    (items : List GalleryItem)
    (hfav : ∀ p ∈ items, p.id = photoId → p.favorite = isCur) :
    revertFavoriteUpdate photoId isCur (optimisticFavoriteUpdate photoId isCur items) =
      items := by
  induction items with
  | nil => rfl
  | cons p ps ih =>
    have hp : p.id = photoId → p.favorite = isCur := hfav p (by simp)
    have hps : ∀ q ∈ ps, q.id = photoId → q.favorite = isCur :=
      fun q hq => hfav q (by simp [hq])
    simp only [optimisticFavoriteUpdate, revertFavoriteUpdate, List.map_cons] at ih ⊢
    rw [ih hps]
    by_cases h : p.id = photoId
    · have hfp := hp h
      cases p
      simp_all
    · simp [h]

/-- Witness for C7 at a concrete list and a favorite photo. -/
theorem favoriteToggle_revert_is_identity_witness :
    revertFavoriteUpdate ("a".toList) true
        (optimisticFavoriteUpdate ("a".toList) true [itemA, itemB]) =
      [itemA, itemB] :=
  favoriteToggle_revert_is_identity ("a".toList) true [itemA, itemB] (by decide)

/-- A built index entry always contains the join separators, so an id indexed
by buildIndex never maps to an empty string: the truthiness test of
filteredPhotos takes the fallback text only for ids absent from the index. -/
theorem buildIndexEntry_ne_nil (fmtDate : JSStr → JSStr)
    (fmtNum : Nat → Nat → JSStr) (d : PhotoItem) :
    buildIndexEntry fmtDate fmtNum d ≠ [] := by
  unfold buildIndexEntry
  simp only [joinSp, jsToLower]
  intro h
  have h2 := List.map_eq_nil_iff.mp h
  have h3 := (List.append_eq_nil.mp h2).2
  exact absurd h3 (by simp)

/-- C6 as stated fails on the code: at a concrete favorite photo the built
index entry differs from the entry the spec describes, because buildIndex
also appends a favorite token (and, for deleted photos, trash tokens). -/
theorem buildIndexEntry_ne_spec :
    buildIndexEntry (fun s => s) (fun _ _ => "0".toList) photoFav ≠
      specIndexEntry (fun s => s) (fun _ _ => "0".toList) photoFav := by decide

/-- C6 amended: the index entry is the spec-described lowercase space-joined
string of filename, caption, formatted date, formatted size and flattened
metadata, followed by a space and the token favorite when the photo is
favorite, and a space and the tokens trash deleted when it is deleted (the
placeholders stay as separators when the flags are off). -/
theorem buildIndexEntry_eq_spec_and_flags (fmtDate : JSStr → JSStr)
    (fmtNum : Nat → Nat → JSStr) (d : PhotoItem) :
    buildIndexEntry fmtDate fmtNum d =
      specIndexEntry fmtDate fmtNum d ++
        (' ' :: (if d.is_favorite then "favorite".toList else [])) ++
        (' ' :: (if d.is_deleted then "trash deleted".toList else [])) := by
  have hsp : Char.toLower ' ' = ' ' := rfl
  have hfav : List.map Char.toLower ("favorite".toList) = "favorite".toList := rfl
  have htd : List.map Char.toLower ("trash deleted".toList) =
      "trash deleted".toList := rfl
  unfold buildIndexEntry specIndexEntry
  cases d.is_favorite <;> cases d.is_deleted <;>
    simp [joinSp, jsToLower, List.map_append, hsp, hfav, htd,
      List.append_assoc, List.cons_append]

/-- C8: a 404 response to soft delete, restore, or permanent delete surfaces
the single merged message "Photo not found or access denied." and leaves the
photo list unchanged. -/
theorem status404_merged_error (i : JSStr) (st : JSStr) (prev : List GalleryItem)
    (confirmed : Bool) (hc : confirmed = true) :
    moveToTrashResult i 404 st prev =
      { items := prev, error := some ("Photo not found or access denied.".toList) } ∧
    restoreResult i 404 st prev =
      { items := prev, error := some ("Photo not found or access denied.".toList) } ∧
    deletePermanentResult i confirmed 404 st prev =
      { items := prev, error := some ("Photo not found or access denied.".toList) } := by
  subst hc
  exact ⟨rfl, rfl, rfl⟩

/-- Witness for C8 at a concrete id, status text and list. -/
theorem status404_merged_error_witness :
    moveToTrashResult ("a".toList) 404 ("Not Found".toList) [itemA] =
      { items := [itemA], error := some ("Photo not found or access denied.".toList) } ∧
    restoreResult ("a".toList) 404 ("Not Found".toList) [itemA] =
      { items := [itemA], error := some ("Photo not found or access denied.".toList) } ∧
    deletePermanentResult ("a".toList) true 404 ("Not Found".toList) [itemA] =
      { items := [itemA], error := some ("Photo not found or access denied.".toList) } :=
  status404_merged_error ("a".toList) ("Not Found".toList) [itemA] true rfl

/-- C9: soft delete, restore and the optimistic favorite update keep every
photo whose id differs from the target in place and entirely unchanged, and
permanent delete keeps every such photo unchanged in its previous order. -/
theorem per_photo_ops_frame (i : JSStr) (items : List GalleryItem) (n : Nat)
    (p : GalleryItem) (hget : items[n]? = some p) (hid : ¬ p.id = i) :
    (moveToTrashUpdate i items)[n]? = some p ∧
    (restoreUpdate i items)[n]? = some p ∧
    (∀ b : Bool, (optimisticFavoriteUpdate i b items)[n]? = some p) ∧
    p ∈ deletePermanentUpdate i items ∧
    List.Sublist (deletePermanentUpdate i items) items := by
  have hmem : p ∈ items := List.getElem?_mem hget
  refine ⟨?_, ?_, fun b => ?_, ?_, List.filter_sublist _⟩
  · simp [moveToTrashUpdate, List.getElem?_map, hget, hid]
  · simp [restoreUpdate, List.getElem?_map, hget, hid]
  · simp [optimisticFavoriteUpdate, List.getElem?_map, hget, hid]
  · simp [deletePermanentUpdate, List.mem_filter, hmem, hid]

/-- Witness for C9 at a concrete list: position 0 is untouched by a soft
delete that targets the photo at position 1. -/
theorem per_photo_ops_frame_witness :
    (moveToTrashUpdate ("b".toList) [itemA, itemB])[0]? = some itemA :=
  (per_photo_ops_frame ("b".toList) [itemA, itemB] 0 itemA (by decide) (by decide)).1

/-- C10: formatBytes yields "0 B" at zero, a string with unit B on byte
counts in [1, 1024), KB on [1024, 1048576), and generally the unit of index
j on [1024 pow j, 1024 pow (j + 1)). -/
theorem formatBytes_zero_and_units (fmtNum : Nat → Nat → JSStr) :
    formatBytes fmtNum 0 = "0 B".toList ∧
    (∀ b, 1 ≤ b → b < 1024 →
      ∃ pre, formatBytes fmtNum b = pre ++ (' ' :: "B".toList)) ∧
    (∀ b, 1024 ≤ b → b < 1048576 →
      ∃ pre, formatBytes fmtNum b = pre ++ (' ' :: "KB".toList)) ∧
    (∀ j b, j < 9 → 1024 ^ j ≤ b → b < 1024 ^ (j + 1) →
      ∃ pre, formatBytes fmtNum b = pre ++ (' ' :: sizes.getD j [])) := by
  have hgen : ∀ j b, 1024 ^ j ≤ b → b < 1024 ^ (j + 1) →
      ∃ pre, formatBytes fmtNum b = pre ++ (' ' :: sizes.getD j []) := by
    intro j b h1 h2
    have hone : 1 ≤ 1024 ^ j := Nat.one_le_pow j 1024 (by norm_num)
    have hb0 : ¬ b = 0 := by omega
    have hlog : Nat.log 1024 b = j := Nat.log_eq_of_pow_le_of_lt_pow h1 h2
    refine ⟨fmtNum b (Nat.log 1024 b), ?_⟩
    unfold formatBytes
    rw [if_neg hb0, hlog]
  refine ⟨rfl, ?_, ?_, fun j b _ h1 h2 => hgen j b h1 h2⟩
  · intro b h1 h2
    have hB : sizes.getD 0 [] = "B".toList := rfl
    have := hgen 0 b (by simpa using h1) (by simpa using h2)
    rwa [hB] at this
  · intro b h1 h2
    have hKB : sizes.getD 1 [] = "KB".toList := rfl
    have := hgen 1 b (by simpa using h1) (by norm_num; omega)
    rwa [hKB] at this

/-- Witness for C10: 2048 bytes is rendered with unit KB. -/
theorem formatBytes_zero_and_units_witness :
    ∃ pre, formatBytes (fun _ _ => "2".toList) 2048 = pre ++ (' ' :: "KB".toList) :=
  (formatBytes_zero_and_units (fun _ _ => "2".toList)).2.2.1 2048
    (by decide) (by decide)

end Gallery
